import Mathlib

/-!
Verification of the HopeTurtle GPS acquisition pipeline.

Shallow embedding of `src/gps_snapshot.py` (NMEA decoding, timestamp
resolution, fix classification, record finalization) and of the distance
helpers of `src/oled_status.py` (haversine distance, last-fix scan).

Modelling conventions:
  * Python floats are modelled as exact rationals (`ℚ`); the haversine
    utility, which is genuinely transcendental, is modelled over `ℝ`.
  * Python `None` is `Option.none`; a CSV cell that is written as the
    empty string is also modelled as `Option.none` on the typed side.
  * A Python exception escaping a function is `Except.error ()`; code
    that cannot raise returns plain values or `Option`.
  * String primitives (`split`, slicing, `startswith`, `lower`) are
    re-implemented on `String.data` so that every definition reduces in
    the kernel.
  * Wall-clock inputs (`datetime.now`) are passed explicitly: `nowYear`
    is the host clock's year and `nowStr` the formatted host timestamp.
-/

set_option maxRecDepth 8000

set_option allowUnsafeReducibility true

attribute [semireducible] Rat.add Rat.mul Rat.inv Rat.sub Rat.div Rat.ofScientific

namespace HopeTurtle

/-- Python `s.split(",")` on the character list of a string: splits on every
comma, keeping empty fields, and yields `[""]` for the empty string. -/
def splitComma : List Char → List String
  | [] => [""]
  | c :: rest =>
      if c = ',' then "" :: splitComma rest
      else
        match splitComma rest with
        | [] => [⟨[c]⟩]
        | s :: ss => (⟨c :: s.data⟩ : String) :: ss

/-- Python `line.split(",")`. -/
def pySplitComma (s : String) : List String := splitComma s.data

/-- Python `s.startswith(p)`. -/
def strStarts (s p : String) : Bool := p.data.isPrefixOf s.data

/-- Python slicing `s[:n]` (character count; NMEA payloads are ASCII). -/
def pyTake (s : String) (n : ℕ) : String := ⟨s.data.take n⟩

/-- Python slicing `s[n:]`. -/
def pyDrop (s : String) (n : ℕ) : String := ⟨s.data.drop n⟩

/-- Python `s.lower()` (ASCII case folding suffices for the status labels). -/
def pyLower (s : String) : String := ⟨s.data.map Char.toLower⟩

/-- Numeric value of a digit list, most significant digit first. -/
def natOfDigits (cs : List Char) : ℕ :=
  cs.foldl (fun a c => 10 * a + (c.toNat - 48)) 0

/-- Parse a non-empty all-digit character list; `none` otherwise. -/
def digitsToNat (cs : List Char) : Option ℕ :=
  if cs ≠ [] ∧ cs.all Char.isDigit then some (natOfDigits cs) else none

/-- Python `int(s)` restricted to an optional sign followed by decimal
digits; `none` models the `ValueError` raised on any other input.
(The whitespace-stripping and underscore forms accepted by CPython do not
occur in NMEA payloads and are not modelled.) -/
def pyInt (s : String) : Option ℤ :=
  match s.data with
  | '+' :: rest => (digitsToNat rest).map Int.ofNat
  | '-' :: rest => (digitsToNat rest).map fun n => -(n : ℤ)
  | cs => (digitsToNat cs).map Int.ofNat

/-- Value of `intPart.fracPart` as an exact rational. -/
def ratOfParts (intPart frac : List Char) : ℚ :=
  (natOfDigits intPart : ℚ) + (natOfDigits frac : ℚ) / 10 ^ frac.length

/-- Unsigned core of Python `float(s)`: digits with at most one decimal
point and at least one digit. -/
def pyFloatCore (cs : List Char) : Option ℚ :=
  let intPart := cs.takeWhile (· ≠ '.')
  match cs.dropWhile (· ≠ '.') with
  | [] => (digitsToNat intPart).map fun n => (n : ℚ)
  | '.' :: frac =>
      if frac.contains '.' then none
      else if intPart.all Char.isDigit ∧ frac.all Char.isDigit ∧
              (intPart ≠ [] ∨ frac ≠ []) then
        some (ratOfParts intPart frac)
      else none
  | _ => none

/-- Python `float(s)` on plain decimal literals with optional sign; `none`
models the `ValueError` on anything else. (Exponent, `inf` and `nan`
spellings never occur in NMEA payloads and are not modelled.) -/
def pyFloat (s : String) : Option ℚ :=
  match s.data with
  | '+' :: rest => pyFloatCore rest
  | '-' :: rest => (pyFloatCore rest).map Neg.neg
  | cs => pyFloatCore cs

/-- Python `round(x, n)` idealized over exact rationals: round
`x * 10^n` to the nearest integer, ties to even, divide back. -/
def roundHalfEven (q : ℚ) : ℤ :=
  let f := ⌊q⌋
  let r := q - f
  if r < 1/2 then f
  else if 1/2 < r then f + 1
  else if f % 2 = 0 then f else f + 1

/-- `round(x, n)` of CPython, on the exact rational model. -/
def roundPy (n : ℕ) (q : ℚ) : ℚ := (roundHalfEven (q * 10 ^ n) : ℚ) / 10 ^ n

/-- A UTC calendar timestamp, second precision (`datetime` with `tzinfo=utc`). -/
structure UTCTime where
  year : ℤ
  month : ℤ
  day : ℤ
  hour : ℤ
  minute : ℤ
  second : ℤ
deriving DecidableEq, Repr

/-- Gregorian leap-year rule used by `datetime`. -/
def isLeap (y : ℤ) : Bool := y % 4 = 0 ∧ (y % 100 ≠ 0 ∨ y % 400 = 0)

/-- Length of a month, as validated by the `datetime` constructor. -/
def daysInMonth (y m : ℤ) : ℤ :=
  if m = 2 then (if isLeap y then 29 else 28)
  else if m = 4 ∨ m = 6 ∨ m = 9 ∨ m = 11 then 30
  else 31

/-- The `datetime(year, month, day, hour, minute, second)` constructor:
`some` timestamp on in-range arguments, `none` for the `ValueError` that
`parse_rmc_time_date` catches. -/
def mkDatetimeUTC (y M d h mi s : ℤ) : Option UTCTime :=
  if 1 ≤ y ∧ y ≤ 9999 ∧ 1 ≤ M ∧ M ≤ 12 ∧ 1 ≤ d ∧ d ≤ daysInMonth y M ∧
     0 ≤ h ∧ h ≤ 23 ∧ 0 ≤ mi ∧ mi ≤ 59 ∧ 0 ≤ s ∧ s ≤ 59
  then some ⟨y, M, d, h, mi, s⟩ else none

/-- `dm_to_deg(dm, hemi)` of `gps_snapshot.py`: NMEA degrees-minutes token
to signed decimal degrees. `.ok none` is Python's `None` (empty token);
`.error ()` is the uncaught `ValueError` of `int`/`float` on a malformed
token. -/
def dm_to_deg (dm hemi : String) : Except Unit (Option ℚ) :=
  if dm = "" then .ok none
  else
    let dTok := if hemi = "N" ∨ hemi = "S" then pyTake dm 2 else pyTake dm 3
    let mTok := if hemi = "N" ∨ hemi = "S" then pyDrop dm 2 else pyDrop dm 3
    match pyInt dTok, pyFloat mTok with
    | some d, some m =>
        let val : ℚ := (d : ℚ) + m / 60
        .ok (some (if hemi = "S" ∨ hemi = "W" then -val else val))
    | _, _ => .error ()

/-- `parse_rmc_time_date(r_time, r_date)` of `gps_snapshot.py`: build a UTC
timestamp from RMC `hhmmss` and `ddmmyy` tokens; the surrounding
`try/except` turns every failure into `None`. -/
def parse_rmc_time_date (r_time r_date : String) : Option UTCTime :=
  if r_time = "" ∨ r_date = "" then none
  else
    match pyInt (pyTake r_time 2), pyInt (pyTake (pyDrop r_time 2) 2),
          pyInt (pyTake (pyDrop r_time 4) 2), pyInt (pyTake r_date 2),
          pyInt (pyTake (pyDrop r_date 2) 2), pyInt (pyTake (pyDrop r_date 4) 2) with
    | some hh, some mm, some ss, some dd, some MM, some yy =>
        mkDatetimeUTC (if yy < 80 then 2000 + yy else 1900 + yy) MM dd hh mm ss
    | _, _, _, _, _, _ => none

deriving instance DecidableEq for Except

/-- The mutable accumulator of `parse_nmea_to_row` (spec: `FixObservation`):
the local variables of the decode loop. `fix_status` is `true` for the
Python string `"fix"` and `false` for `"no_fix"`. -/
structure Obs where
  lat : Option ℚ
  lon : Option ℚ
  alt : Option ℚ
  hdop : Option ℚ
  sats : Option ℤ
  fixq : Option ℤ
  speed_kmh : Option ℚ
  course_deg : Option ℚ
  r_date : String
  r_time : String
  gps_dt : Option UTCTime
  had_nmea : Bool
  fix_status : Bool
deriving DecidableEq, Repr

/-- Initial accumulator state of `parse_nmea_to_row` (lines 166-172). -/
def initObs : Obs :=
  { lat := none, lon := none, alt := none, hdop := none, sats := none
    fixq := none, speed_kmh := none, course_deg := none
    r_date := "", r_time := "", gps_dt := none
    had_nmea := false, fix_status := false }

/-- Python `float(tok) if tok else None`, where an unparseable non-empty
token raises (`.error ()`). -/
def floatOrNone (tok : String) : Except Unit (Option ℚ) :=
  if tok = "" then .ok none
  else
    match pyFloat tok with
    | some v => .ok (some v)
    | none => .error ()

/-- One iteration of the `for line in nmea_lines` body of
`parse_nmea_to_row` for a line that starts with `"$"` (the `continue` for
other lines is handled by `decodeLoop`): sets `had_nmea`, then decodes an
RMC or GGA sentence. `.error ()` is an uncaught conversion exception. -/
def decodeStep (line : String) (st0 : Obs) : Except Unit Obs :=
  let st := { st0 with had_nmea := true }
  if strStarts line "$GPRMC" || strStarts line "$GNRMC" then
    let p := pySplitComma line
    if p.length ≥ 10 then
      let st := { st with r_time := p.getD 1 "", r_date := p.getD 9 ""
                          gps_dt := parse_rmc_time_date (p.getD 1 "") (p.getD 9 "") }
      if p.getD 2 "" = "A" then
        match dm_to_deg (p.getD 3 "") (p.getD 4 ""), dm_to_deg (p.getD 5 "") (p.getD 6 ""),
              floatOrNone (p.getD 7 ""), floatOrNone (p.getD 8 "") with
        | .ok la, .ok lo, .ok sp, .ok co =>
            .ok { st with lat := la, lon := lo
                          speed_kmh := sp.map (· * (1852/1000))
                          course_deg := co, fix_status := true }
        | _, _, _, _ => .error ()
      else .ok st
    else .ok st
  else if strStarts line "$GPGGA" || strStarts line "$GNGGA" then
    let p := pySplitComma line
    if p.length ≥ 10 then
      match floatOrNone (p.getD 8 ""), floatOrNone (p.getD 9 "") with
      | .ok hd, .ok al =>
          .ok { st with fixq := some (if p.getD 6 "" = "" then 0 else (pyInt (p.getD 6 "")).getD 0)
                        sats := if p.getD 7 "" = "" then none else pyInt (p.getD 7 "")
                        hdop := hd, alt := al }
      | _, _ => .error ()
    else .ok st
  else .ok st

/-- The decode loop of `parse_nmea_to_row` (lines 174-206): skip lines not
starting with `"$"`, feed the rest to `decodeStep`, and `break` as soon as
`fix_status` is `"fix"`. -/
def decodeLoop : List String → Obs → Except Unit Obs
  | [], st => .ok st
  | l :: ls, st =>
      if strStarts l "$" then
        match decodeStep l st with
        | .error e => .error e
        | .ok st' => if st'.fix_status then .ok st' else decodeLoop ls st'
      else decodeLoop ls st

/-- The finished record of one acquisition (spec: `FixRecord`), i.e. the
CSV/JSON row dict. A numeric field holds `none` where the CSV cell is the
empty string. -/
structure Row where
  timestamp_utc : String
  lat : Option ℚ
  lon : Option ℚ
  alt_m : Option ℚ
  sats : Option ℤ
  hdop : Option ℚ
  speed_kmh : Option ℚ
  course_deg : Option ℚ
  fix_quality : ℤ
  raw_date_utc : String
  raw_time_utc : String
  status : String
deriving DecidableEq, Repr

/-- Python truthiness serialization `value or ""` for an optional rational:
`None` and `0.0` both print as the empty cell. -/
def orBlankQ : Option ℚ → Option ℚ
  | some x => if x = 0 then none else some x
  | none => none

/-- Python truthiness serialization `value or ""` for an optional integer. -/
def orBlankZ : Option ℤ → Option ℤ
  | some x => if x = 0 then none else some x
  | none => none

/-- Zero-pad an integer to two digits (`strftime` field). -/
def pad2s (n : ℤ) : String := if n < 10 then "0" ++ toString n else toString n

/-- `strftime("%Y-%m-%dT%H:%M:%SZ")` on a UTC timestamp (years in this
program are four digits). -/
def formatTs (t : UTCTime) : String :=
  toString t.year ++ "-" ++ pad2s t.month ++ "-" ++ pad2s t.day ++ "T" ++
    pad2s t.hour ++ ":" ++ pad2s t.minute ++ ":" ++ pad2s t.second ++ "Z"

/-- Timestamp selection and row construction of `parse_nmea_to_row`
(lines 208-233). `nowYear`/`nowStr` stand for the host clock reads
`datetime.now(timezone.utc).year` and `safe_now_utc_str()`. -/
def finalize (st : Obs) (nowYear : ℤ) (nowStr : String) : Row :=
  let tsStatus : String × String :=
    match st.gps_dt, st.fix_status with
    | some dt, true => (formatTs dt, "fix")
    | _, _ =>
        if nowYear > 2020 then
          (nowStr, if st.had_nmea then "system_time_no_fix" else "system_time_no_nmea")
        else ("", "no_time")
  { timestamp_utc := tsStatus.1
    lat := orBlankQ st.lat
    lon := orBlankQ st.lon
    alt_m := orBlankQ st.alt
    sats := orBlankZ st.sats
    hdop := orBlankQ st.hdop
    speed_kmh := match st.speed_kmh with
      | some v => if v = 0 then none else some (roundPy 3 v)
      | none => none
    course_deg := orBlankQ st.course_deg
    fix_quality := st.fixq.getD 0
    raw_date_utc := st.r_date
    raw_time_utc := st.r_time
    status := tsStatus.2 }

/-- `parse_nmea_to_row(nmea_lines)` of `gps_snapshot.py`, host clock passed
explicitly. `.error ()` is an uncaught conversion exception. -/
def parse_nmea_to_row (nmea_lines : List String) (nowYear : ℤ) (nowStr : String) :
    Except Unit Row :=
  (decodeLoop nmea_lines initObs).map fun st => finalize st nowYear nowStr

/-- The breadcrumb row written by `main` when the transport reader reported
an error (lines 255-258): every field empty except timestamp, fix quality
and the error status. -/
def errRow (err : String) (nowStr : String) : Row :=
  { timestamp_utc := nowStr, lat := none, lon := none, alt_m := none
    sats := none, hdop := none, speed_kmh := none, course_deg := none
    fix_quality := 0, raw_date_utc := "", raw_time_utc := ""
    status := err }

/-- Record production of `main` (lines 246-278): the transport reader's
result is either logged as an error breadcrumb or parsed into a row. -/
def hopeMain (readResult : List String × Option String) (nowYear : ℤ) (nowStr : String) :
    Except Unit Row :=
  match readResult with
  | (_, some err) => .ok (errRow err nowStr)
  | (lines, none) => parse_nmea_to_row lines nowYear nowStr

/-- `read_nmea_lines_hard` when `serial.Serial(port, baud, timeout=1)`
raises (lines 138-141): no lines, and the open failure tagged as the
error reason. -/
def read_nmea_lines_hard_open_failure (reason : String) : List String × Option String :=
  ([], some ("error_open_serial:" ++ reason))

/-- True exactly on the lines whose processing sets `fix_status` to
`"fix"`: an RMC sentence with at least 10 fields and validity flag `"A"`. -/
def setsFix (l : String) : Bool :=
  (strStarts l "$GPRMC" || strStarts l "$GNRMC") &&
    decide ((pySplitComma l).length ≥ 10) && ((pySplitComma l).getD 2 "" == "A")

/-- Modelled from the spec wording of the early-stop rule (C3): the same
loop, but halting exactly when both latitude and longitude have been set,
for comparison with the implemented loop. -/
def decodeLoopClaimStop : List String → Obs → Except Unit Obs
  | [], st => .ok st
  | l :: ls, st =>
      if strStarts l "$" then
        match decodeStep l st with
        | .error e => .error e
        | .ok st' =>
            if st'.lat.isSome && st'.lon.isSome then .ok st'
            else decodeLoopClaimStop ls st'
      else decodeLoopClaimStop ls st

/-- Modelled from the spec wording of claim C2: the status label as a pure
function of (transport error, any-NMEA-seen, GPS timestamp availability,
decoded position availability, host-clock plausibility), in the claim's
precedence order. -/
def claimStatus (err : Option String) (hadNmea gpsTs posAvail hostPlausible : Bool) :
    String :=
  match err with
  | some e => e
  | none =>
      if gpsTs && posAvail then "fix"
      else if hostPlausible && hadNmea then "system_time_no_fix"
      else if hostPlausible && !hadNmea then "system_time_no_nmea"
      else "no_time"

/-- The status label the code actually computes, as a pure function of the
same observables except that the `fix` case tests the fix-validity flag (a
valid RMC sentence was decoded) instead of decoded-position availability. -/
def amendedStatus (err : Option String) (hadNmea gpsTs fixFlag hostPlausible : Bool) :
    String :=
  match err with
  | some e => e
  | none =>
      if gpsTs && fixFlag then "fix"
      else if hostPlausible && hadNmea then "system_time_no_fix"
      else if hostPlausible && !hadNmea then "system_time_no_nmea"
      else "no_time"

/-- One CSV row as read back by `csv.DictReader` in `oled_status.py`: all
cells are strings; an absent value is the empty string. -/
structure CsvRow where
  timestamp_utc : String
  lat : String
  lon : String
  sats : String
  status : String
deriving DecidableEq, Repr

/-- The inner row loop of `_find_last_fix_from_csvs` over one file's rows,
already reversed to most-recent-first (lines 154-160 of `oled_status.py`):
return the first row whose lowercased status is `"fix"` with non-empty
latitude and longitude cells; `float()` failing on such a row raises,
which the caller turns into skipping the whole file. -/
def scanRows : List CsvRow → Except Unit (Option (String × ℚ × ℚ × String))
  | [] => .ok none
  | r :: rest =>
      if pyLower r.status = "fix" ∧ ¬r.lat = "" ∧ ¬r.lon = "" then
        match pyFloat r.lat, pyFloat r.lon with
        | some la, some lo =>
            .ok (some (r.timestamp_utc, la, lo, if r.sats = "" then "?" else r.sats))
        | _, _ => .error ()
      else scanRows rest

/-- `_find_last_fix_from_csvs` of `oled_status.py` (lines 148-164): the
files are given already sorted most-recent-first (the `mtime` sort); each
file's rows are in append order and scanned in reverse; a row-level
exception prints a warning and moves on to the next file. -/
def find_last_fix :
    List (String × List CsvRow) → Option (String × String × ℚ × ℚ × String)
  | [] => none
  | (fp, rows) :: rest =>
      match scanRows rows.reverse with
      | .ok (some (ts, la, lo, sa)) => some (fp, ts, la, lo, sa)
      | .ok none => find_last_fix rest
      | .error _ => find_last_fix rest

/-- Modelled from the spec wording of claim C9: scan newest-first and
return the first entry whose status equals `fix` (exactly) and whose
latitude and longitude fields are both present (non-empty). -/
def find_last_fix_claim (files : List (String × List CsvRow)) : Option CsvRow :=
  (files.map (fun fr => fr.2.reverse)).flatten.find?
    (fun r => r.status == "fix" && !(r.lat == "") && !(r.lon == ""))

/-- A row qualifying for the last-fix scan: status `"fix"` up to ASCII
case, both coordinate cells non-empty. -/
def qualifies (r : CsvRow) : Bool :=
  (pyLower r.status == "fix") && !(r.lat == "") && !(r.lon == "")

/-- Reference formulation of the amended claim C9: per file, take the most
recent qualifying row; if its coordinate cells parse as numbers it is the
result, otherwise the file is skipped entirely. -/
def find_last_fix_amended :
    List (String × List CsvRow) → Option (String × String × ℚ × ℚ × String)
  | [] => none
  | (fp, rows) :: rest =>
      match rows.reverse.find? qualifies with
      | some r =>
          match pyFloat r.lat, pyFloat r.lon with
          | some la, some lo =>
              some (fp, r.timestamp_utc, la, lo, if r.sats = "" then "?" else r.sats)
          | _, _ => find_last_fix_amended rest
      | none => find_last_fix_amended rest

/-- `math.atan2(y, x)`: four-quadrant arctangent. -/
noncomputable def atan2 (y x : ℝ) : ℝ :=
  if 0 < x then Real.arctan (y / x)
  else if x < 0 ∧ 0 ≤ y then Real.arctan (y / x) + Real.pi
  else if x < 0 ∧ y < 0 then Real.arctan (y / x) - Real.pi
  else if x = 0 ∧ 0 < y then Real.pi / 2
  else if x = 0 ∧ y < 0 then -(Real.pi / 2)
  else 0

/-- `math.radians(d)`: degrees to radians. -/
noncomputable def radians (d : ℝ) : ℝ := d * Real.pi / 180

/-- `_haversine_km` of `oled_status.py` (lines 140-146), over the real
numbers: great-circle distance with mean Earth radius 6371.0088 km. -/
noncomputable def haversine_km (lat1 lon1 lat2 lon2 : ℝ) : ℝ :=
  let R : ℝ := 6371.0088
  let phi1 := radians lat1
  let phi2 := radians lat2
  let dphi := phi2 - phi1
  let dlmb := radians (lon2 - lon1)
  let a := Real.sin (dphi / 2) ^ 2 +
    Real.cos phi1 * Real.cos phi2 * Real.sin (dlmb / 2) ^ 2
  R * (2 * atan2 (Real.sqrt a) (Real.sqrt (1 - a)))

/-- C1: the code violates the pairing invariant. On a valid RMC sentence
whose latitude token is empty but whose longitude token is non-empty —
the exact situation the invariant rules out — `parse_nmea_to_row` emits a
finished record with longitude present, latitude absent, and status
`fix` (host year 2025). -/
theorem c1_half_position_emitted :
    (parse_nmea_to_row ["$GPRMC,123519,A,,N,12202.1663,W,,,230394"] 2025
        "2025-06-01T00:00:00Z").map (fun r => (r.lat, r.lon, r.status)) =
      .ok (none, some (-(24407221/200000)), "fix") := by decide

/-- C5: in the finalized record every decoded numeric value equal to zero
is serialized as the absent (empty) cell by the `value or ""` truthiness
tests, and a fix-quality of `0` is indistinguishable from an absent
fix-quality. -/
theorem c5_zero_values_blank (st : Obs) (nowYear : ℤ) (nowStr : String) :
    (st.lat = some 0 → (finalize st nowYear nowStr).lat = none) ∧
    (st.lon = some 0 → (finalize st nowYear nowStr).lon = none) ∧
    (st.alt = some 0 → (finalize st nowYear nowStr).alt_m = none) ∧
    (st.sats = some 0 → (finalize st nowYear nowStr).sats = none) ∧
    (st.hdop = some 0 → (finalize st nowYear nowStr).hdop = none) ∧
    (st.speed_kmh = some 0 → (finalize st nowYear nowStr).speed_kmh = none) ∧
    (st.course_deg = some 0 → (finalize st nowYear nowStr).course_deg = none) ∧
    finalize { st with fixq := some 0 } nowYear nowStr =
      finalize { st with fixq := none } nowYear nowStr := by
  refine ⟨?_, ?_, ?_, ?_, ?_, ?_, ?_, ?_⟩ <;>
    first
    | (intro h; simp [finalize, orBlankQ, orBlankZ, h])
    | simp [finalize]

/-- Concrete observation with every numeric value decoded as zero, used to
instantiate `c5_zero_values_blank`. -/
def obs0 : Obs :=
  { initObs with lat := some 0, lon := some 0, alt := some 0, hdop := some 0
                 sats := some 0, speed_kmh := some 0, course_deg := some 0 }

/-- Witness for C5 at a concrete observation. -/
theorem c5_zero_values_blank_witness :
    (finalize obs0 2025 "t").lat = none ∧ (finalize obs0 2025 "t").lon = none ∧
    (finalize obs0 2025 "t").alt_m = none ∧ (finalize obs0 2025 "t").sats = none ∧
    (finalize obs0 2025 "t").hdop = none ∧ (finalize obs0 2025 "t").speed_kmh = none ∧
    (finalize obs0 2025 "t").course_deg = none ∧
    finalize { obs0 with fixq := some 0 } 2025 "t" =
      finalize { obs0 with fixq := none } 2025 "t" :=
  ⟨(c5_zero_values_blank obs0 2025 "t").1 rfl,
    (c5_zero_values_blank obs0 2025 "t").2.1 rfl,
    (c5_zero_values_blank obs0 2025 "t").2.2.1 rfl,
    (c5_zero_values_blank obs0 2025 "t").2.2.2.1 rfl,
    (c5_zero_values_blank obs0 2025 "t").2.2.2.2.1 rfl,
    (c5_zero_values_blank obs0 2025 "t").2.2.2.2.2.1 rfl,
    (c5_zero_values_blank obs0 2025 "t").2.2.2.2.2.2.1 rfl,
    (c5_zero_values_blank obs0 2025 "t").2.2.2.2.2.2.2⟩

/-- C6: `parse_rmc_time_date` returns the absent value on a missing token,
composes the UTC timestamp with the century rule `yy < 80 → 2000 + yy`,
`yy ≥ 80 → 1900 + yy` whenever the six two-digit slices parse (with
`mkDatetimeUTC` rejecting out-of-range calendar values as the absent
value, never an exception), and in particular maps `("123519","230394")`
to 1994-03-23T12:35:19Z. -/
theorem c6_parse_rmc_time_date :
    (∀ d, parse_rmc_time_date "" d = none) ∧
    (∀ t, parse_rmc_time_date t "" = none) ∧
    (∀ t d (hh mm ss dd MM yy : ℤ),
      pyInt (pyTake t 2) = some hh → pyInt (pyTake (pyDrop t 2) 2) = some mm →
      pyInt (pyTake (pyDrop t 4) 2) = some ss → pyInt (pyTake d 2) = some dd →
      pyInt (pyTake (pyDrop d 2) 2) = some MM → pyInt (pyTake (pyDrop d 4) 2) = some yy →
      t ≠ "" → d ≠ "" →
      parse_rmc_time_date t d =
        mkDatetimeUTC (if yy < 80 then 2000 + yy else 1900 + yy) MM dd hh mm ss) ∧
    parse_rmc_time_date "123519" "230394" = some ⟨1994, 3, 23, 12, 35, 19⟩ ∧
    parse_rmc_time_date "123519" "230310" = some ⟨2010, 3, 23, 12, 35, 19⟩ ∧
    parse_rmc_time_date "123519" "320394" = none := by
  refine ⟨?_, ?_, ?_, by decide, by decide, by decide⟩
  · intro d; simp [parse_rmc_time_date]
  · intro t; simp [parse_rmc_time_date]
  · intro t d hh mm ss dd MM yy h1 h2 h3 h4 h5 h6 ht hd
    unfold parse_rmc_time_date
    rw [if_neg (by simp [ht, hd]), h1, h2, h3, h4, h5, h6]

/-- Witness for C6 at the concrete example tokens. -/
theorem c6_parse_rmc_time_date_witness :
    parse_rmc_time_date "123519" "230394" =
      mkDatetimeUTC (if (94 : ℤ) < 80 then 2000 + 94 else 1900 + 94) 3 23 12 35 19 :=
  c6_parse_rmc_time_date.2.2.1 "123519" "230394" 12 35 19 23 3 94
    (by decide) (by decide) (by decide) (by decide) (by decide) (by decide)
    (by decide) (by decide)

/-- C7: `dm_to_deg` maps the empty token to the absent value (not zero);
on a non-empty token whose slices parse, the degree portion is the first 2
digits for hemispheres N/S and the first 3 digits otherwise, the value is
`degrees + minutes / 60`, negated for hemisphere S or W; and it maps the
two documented examples to `37.387458…` and `-122.036105`. -/
theorem c7_dm_to_deg :
    (∀ hemi, dm_to_deg "" hemi = .ok none) ∧
    (∀ dm (d : ℤ) (m : ℚ), dm ≠ "" →
      pyInt (pyTake dm 2) = some d → pyFloat (pyDrop dm 2) = some m →
      dm_to_deg dm "N" = .ok (some ((d : ℚ) + m / 60)) ∧
      dm_to_deg dm "S" = .ok (some (-((d : ℚ) + m / 60)))) ∧
    (∀ dm hemi (d : ℤ) (m : ℚ), dm ≠ "" → hemi ≠ "N" → hemi ≠ "S" →
      pyInt (pyTake dm 3) = some d → pyFloat (pyDrop dm 3) = some m →
      dm_to_deg dm hemi =
        .ok (some (if hemi = "W" then -((d : ℚ) + m / 60) else (d : ℚ) + m / 60))) ∧
    dm_to_deg "3723.2475" "N" = .ok (some (897299/24000)) ∧
    dm_to_deg "12202.1663" "W" = .ok (some (-(24407221/200000))) := by
  refine ⟨?_, ?_, ?_, by decide, by decide⟩
  · intro hemi; simp [dm_to_deg]
  · intro dm d m hdm h1 h2
    constructor <;> (unfold dm_to_deg; rw [if_neg hdm]; simp [h1, h2])
  · intro dm hemi d m hdm hN hS h1 h2
    unfold dm_to_deg
    rw [if_neg hdm]
    have hns : ¬(hemi = "N" ∨ hemi = "S") := by simp [hN, hS]
    simp only [if_neg hns, h1, h2]
    by_cases hW : hemi = "W"
    · simp [hW, hS]
    · simp [hW, hS]

/-- Witness for C7 on concrete tokens with all hypotheses discharged. -/
theorem c7_dm_to_deg_witness :
    dm_to_deg "3723.2475" "S" = .ok (some (-((37 : ℚ) + (232475/10000 : ℚ) / 60))) :=
  (c7_dm_to_deg.2.1 "3723.2475" 37 (232475/10000) (by decide) (by decide) (by decide)).2

/-- C8: when opening the hardware UART fails, the acquisition still
produces a completed record (`Except.ok`, never an escaping exception)
whose positional fields are all absent and whose status carries the
transport-error reason. -/
theorem c8_transport_error_record (reason nowStr : String) (nowYear : ℤ) :
    hopeMain (read_nmea_lines_hard_open_failure reason) nowYear nowStr =
      .ok { timestamp_utc := nowStr, lat := none, lon := none, alt_m := none
            sats := none, hdop := none, speed_kmh := none, course_deg := none
            fix_quality := 0, raw_date_utc := "", raw_time_utc := ""
            status := "error_open_serial:" ++ reason } := rfl

/-- C2 counterexample: on a valid RMC sentence with empty coordinate
tokens and a plausible host clock, the code's status is `fix` although no
decoded position is available; the claim's precedence function (which
requires decoded-position availability for `fix`) yields
`system_time_no_fix` on the same observables. -/
theorem c2_status_counterexample :
    ((decodeLoop ["$GPRMC,123519,A,,,,,,,230394"] initObs).map fun st =>
        ((finalize st 2025 "2025-06-01T00:00:00Z").status,
          claimStatus none st.had_nmea st.gps_dt.isSome
            (st.lat.isSome && st.lon.isSome) true)) =
      .ok ("fix", "system_time_no_fix") ∧ ("fix" : String) ≠ "system_time_no_fix" :=
  ⟨by decide, by decide⟩

/-- C2 amended: the status of the finished record is the claim's
precedence-ordered pure function of (transport error, any-NMEA-seen, GPS
timestamp availability, fix-validity flag, host-clock plausibility) —
with the fix-validity flag (a valid RMC sentence was decoded) in place of
the claim's decoded-position availability. -/
theorem c2_status_amended (err : Option String) (lines : List String) (nowYear : ℤ)
    (nowStr : String) (st : Obs) (h : decodeLoop lines initObs = .ok st) :
    (hopeMain (lines, err) nowYear nowStr).map Row.status =
      .ok (amendedStatus err st.had_nmea st.gps_dt.isSome st.fix_status
            (decide (nowYear > 2020))) := by
  cases err with
  | some e => rfl
  | none =>
      show (parse_nmea_to_row lines nowYear nowStr).map Row.status = _
      rw [parse_nmea_to_row, h]
      show Except.ok (finalize st nowYear nowStr).status = _
      rcases hg : st.gps_dt with _ | dt <;> rcases hf : st.fix_status <;>
        rcases hn : st.had_nmea <;> by_cases hy : nowYear > 2020 <;>
          simp [finalize, amendedStatus, hg, hf, hn, hy]

/-- Witness for C2 (amended) on the empty window. -/
theorem c2_status_amended_witness :
    (hopeMain (([] : List String), (none : Option String)) 2025 "t").map Row.status =
      .ok (amendedStatus none initObs.had_nmea initObs.gps_dt.isSome initObs.fix_status
            (decide ((2025 : ℤ) > 2020))) :=
  c2_status_amended none [] 2025 "t" initObs rfl

/-- `decodeStep` sets the fix flag exactly on the sentences `setsFix`
recognizes (a ≥10-field RMC with validity `"A"`). -/
theorem decodeStep_fix_status (l : String) (st st' : Obs)
    (h : decodeStep l st = .ok st') :
    st'.fix_status = (st.fix_status || setsFix l) := by
  unfold decodeStep at h
  by_cases h1 : (strStarts l "$GPRMC" || strStarts l "$GNRMC") = true
  · rw [if_pos h1] at h
    by_cases h2 : (pySplitComma l).length ≥ 10
    · rw [if_pos h2] at h
      by_cases h3 : (pySplitComma l).getD 2 "" = "A"
      · rw [if_pos h3] at h
        rcases e1 : dm_to_deg ((pySplitComma l).getD 3 "") ((pySplitComma l).getD 4 "")
          with u | la <;>
          rcases e2 : dm_to_deg ((pySplitComma l).getD 5 "") ((pySplitComma l).getD 6 "")
            with u2 | lo <;>
          rcases e3 : floatOrNone ((pySplitComma l).getD 7 "") with u3 | sp <;>
          rcases e4 : floatOrNone ((pySplitComma l).getD 8 "") with u4 | co <;>
          rw [e1, e2, e3, e4] at h <;> cases h
        have h3' : (pySplitComma l)[2]?.getD "" = "A" := by simpa using h3
        simp [setsFix, h1, h2, h3']
      · rw [if_neg h3] at h
        cases h
        have h3' : ¬(pySplitComma l)[2]?.getD "" = "A" := by simpa using h3
        simp [setsFix, h3']
    · rw [if_neg h2] at h
      cases h
      simp [setsFix, h2]
  · rw [if_neg h1] at h
    by_cases h4 : (strStarts l "$GPGGA" || strStarts l "$GNGGA") = true
    · rw [if_pos h4] at h
      by_cases h5 : (pySplitComma l).length ≥ 10
      · rw [if_pos h5] at h
        rcases e1 : floatOrNone ((pySplitComma l).getD 8 "") with u | hd <;>
          rcases e2 : floatOrNone ((pySplitComma l).getD 9 "") with u2 | al <;>
          rw [e1, e2] at h <;> cases h
        simp [setsFix, h1]
      · rw [if_neg h5] at h
        cases h
        simp [setsFix, h1]
    · rw [if_neg h4] at h
      cases h
      simp [setsFix, h1]

/-- A line starting with an RMC tag starts with `"$"`. -/
theorem strStarts_dollar (l : String)
    (h : (strStarts l "$GPRMC" || strStarts l "$GNRMC") = true) :
    strStarts l "$" = true := by
  rcases Bool.or_eq_true_iff.mp h with h' | h' <;>
    · unfold strStarts at h' ⊢
      rcases hd : l.data with _ | ⟨c, cs⟩ <;> rw [hd] at h' <;>
        (simp_all [List.isPrefixOf]; try exact h'.1)

/-- C3 counterexample: on a valid RMC sentence whose coordinate tokens
are empty, followed by a well-formed GGA sentence, the implemented loop
stops at the RMC sentence (no coordinate was set, satellites stay absent)
while the claimed stopping rule — halt only once both coordinates are set
— would continue and pick up the GGA satellite count. -/
theorem c3_early_stop_counterexample :
    (decodeLoop ["$GPRMC,123519,A,,,,,,,230394",
        "$GPGGA,123519,4807.038,N,01131.000,E,1,08,0.9,545.4"] initObs).map Obs.sats =
      .ok none ∧
    (decodeLoopClaimStop ["$GPRMC,123519,A,,,,,,,230394",
        "$GPGGA,123519,4807.038,N,01131.000,E,1,08,0.9,545.4"] initObs).map Obs.sats =
      .ok (some 8) :=
  ⟨by decide, by decide⟩

/-- C3 amended: decoding stops exactly when a valid RMC sentence (at
least 10 fields, validity flag `"A"`) has been processed without a
conversion exception, whether or not it set the coordinates: such a line
ends the loop at once (every later line is ignored), and on any other
line the loop continues into the rest of the input. -/
theorem c3_early_stop_amended :
    (∀ (st : Obs) (l : String) (ls : List String) (st' : Obs),
      setsFix l = true → decodeStep l st = .ok st' →
      decodeLoop (l :: ls) st = .ok st') ∧
    (∀ (st : Obs) (l : String) (ls : List String),
      setsFix l = false → st.fix_status = false →
      decodeLoop (l :: ls) st =
        (if strStarts l "$" then decodeStep l st else .ok st).bind (decodeLoop ls)) := by
  constructor
  · intro st l ls st' hsf hstep
    have hrmc : (strStarts l "$GPRMC" || strStarts l "$GNRMC") = true := by
      unfold setsFix at hsf
      exact Bool.and_eq_true_iff.mp (Bool.and_eq_true_iff.mp hsf).1 |>.1
    have hfix : st'.fix_status = true := by
      rw [decodeStep_fix_status l st st' hstep, hsf, Bool.or_true]
    show decodeLoop (l :: ls) st = .ok st'
    unfold decodeLoop
    rw [if_pos (strStarts_dollar l hrmc), hstep]
    simp [hfix]
  · intro st l ls hsf hst
    by_cases hda : strStarts l "$" = true
    · unfold decodeLoop
      rw [if_pos hda, if_pos hda]
      rcases hstep : decodeStep l st with u | st'
      · rfl
      · have hfix : st'.fix_status = false := by
          rw [decodeStep_fix_status l st st' hstep, hst, hsf, Bool.or_self]
        simp [hfix, Except.bind]
    · unfold decodeLoop
      rw [if_neg hda, if_neg hda]
      rfl

/-- The observation state after the stopping RMC sentence of the C3
witness (empty coordinate tokens, valid timestamp). -/
def obsAfterRmc : Obs :=
  { initObs with r_time := "123519", r_date := "230394"
                 gps_dt := some ⟨1994, 3, 23, 12, 35, 19⟩
                 had_nmea := true, fix_status := true }

/-- Witness for C3 (amended): both conjuncts applied at concrete lines. -/
theorem c3_early_stop_amended_witness :
    decodeLoop ["$GPRMC,123519,A,,,,,,,230394",
        "$GPGGA,123519,4807.038,N,01131.000,E,1,08,0.9,545.4"] initObs =
      .ok obsAfterRmc ∧
    decodeLoop ["not nmea", "$GPRMC,123519,A,,,,,,,230394"] initObs =
      (if strStarts "not nmea" "$" then decodeStep "not nmea" initObs
        else .ok initObs).bind (decodeLoop ["$GPRMC,123519,A,,,,,,,230394"]) :=
  ⟨c3_early_stop_amended.1 initObs "$GPRMC,123519,A,,,,,,,230394"
      ["$GPGGA,123519,4807.038,N,01131.000,E,1,08,0.9,545.4"] obsAfterRmc
      (by decide) (by decide),
    c3_early_stop_amended.2 initObs "not nmea" ["$GPRMC,123519,A,,,,,,,230394"]
      (by decide) rfl⟩

/-- C4 counterexample: the latitude decoded from the token `3723.2475`
is emitted at full precision `37.3874583…`, which is not equal to its own
rounding to 6 decimal places — so latitude is not rounded as claimed. -/
theorem c4_rounding_counterexample :
    (parse_nmea_to_row ["$GPRMC,123519,A,3723.2475,N,12202.1663,W,,,230394"] 2025 "t").map
        Row.lat = .ok (some (897299/24000)) ∧
    roundPy 6 (897299/24000) ≠ (897299/24000 : ℚ) :=
  ⟨by decide, by decide⟩

/-- C4 amended: in the finalized record only the speed field is rounded —
to 3 decimal places, so every emitted speed value is an integer multiple
of 0.001 — while latitude, longitude, altitude, HDOP and course are
passed through unrounded (subject only to the zero/absent truthiness
serialization). -/
theorem c4_rounding_amended (lines : List String) (nowYear : ℤ) (nowStr : String)
    (st : Obs) (h : decodeLoop lines initObs = .ok st) :
    ((parse_nmea_to_row lines nowYear nowStr).map
        (fun r => (r.lat, r.lon, r.alt_m, r.hdop, r.course_deg)) =
      .ok (orBlankQ st.lat, orBlankQ st.lon, orBlankQ st.alt, orBlankQ st.hdop,
        orBlankQ st.course_deg)) ∧
    (∀ s : ℚ, (parse_nmea_to_row lines nowYear nowStr).map Row.speed_kmh =
        .ok (some s) → (s * 1000).den = 1) := by
  constructor
  · rw [parse_nmea_to_row, h]
    rfl
  · intro s hs
    rw [parse_nmea_to_row, h] at hs
    simp only [Except.map, finalize] at hs
    rcases hsp : st.speed_kmh with _ | v <;> rw [hsp] at hs
    · simp at hs
    · by_cases hv : v = 0
      · simp [hv] at hs
      · simp only [hv, if_false, Except.ok.injEq, Option.some.injEq] at hs
        have hsv : s = roundPy 3 v := hs.symm
        have h1000 : ((10 : ℚ) ^ (3 : ℕ)) = 1000 := by norm_num
        rw [hsv, roundPy, h1000, div_mul_cancel₀ _ (by norm_num : (1000 : ℚ) ≠ 0)]
        exact Rat.den_intCast _

/-- Witness for C4 (amended): the record decoded from a full RMC fix with
speed token `022.4` emits speed `41.485 = 8297/200`, an integer multiple
of 0.001. -/
theorem c4_rounding_amended_witness :
    ((8297/200 : ℚ) * 1000).den = 1 :=
  (c4_rounding_amended ["$GPRMC,123519,A,4807.038,N,01131.000,E,022.4,084.4,230394"]
      2025 "t"
      { lat := some (481173/10000), lon := some (691/60), alt := none, hdop := none
        sats := none, fixq := none, speed_kmh := some (25928/625)
        course_deg := some (422/5), r_date := "230394", r_time := "123519"
        gps_dt := some ⟨1994, 3, 23, 12, 35, 19⟩, had_nmea := true, fix_status := true }
      (by decide)).2 (8297/200) (by decide)

/-- `qualifies` is the boolean form of the row filter of
`_find_last_fix_from_csvs`. -/
theorem qualifies_iff (r : CsvRow) :
    qualifies r = true ↔ (pyLower r.status = "fix" ∧ ¬r.lat = "" ∧ ¬r.lon = "") := by
  simp [qualifies, and_assoc]

/-- The row scan of one file matches a `find?`-style description: locate
the most recent qualifying row, then attempt the coordinate parses. -/
theorem scanRows_eq_find (rs : List CsvRow) :
    scanRows rs =
      match rs.find? qualifies with
      | some r =>
          (match pyFloat r.lat, pyFloat r.lon with
            | some la, some lo =>
                .ok (some (r.timestamp_utc, la, lo, if r.sats = "" then "?" else r.sats))
            | _, _ => .error ())
      | none => .ok none := by
  induction rs with
  | nil => rfl
  | cons r rest ih =>
      by_cases hq : (pyLower r.status = "fix" ∧ ¬r.lat = "" ∧ ¬r.lon = "")
      · unfold scanRows
        rw [if_pos hq, List.find?_cons_of_pos _ ((qualifies_iff r).mpr hq)]
      · have hqb : qualifies r = false := by
          rw [← Bool.not_eq_true, qualifies_iff]; exact hq
        unfold scanRows
        rw [if_neg hq, List.find?_cons_of_neg _ (by simp [hqb]), ih]

/-- C9 counterexample: a history whose only record has status `"FIX"`
(upper case) with both coordinates present. The claim's scan — status
equal to `fix` — finds nothing, but the code lowercases the status first
and returns the record. -/
theorem c9_find_last_fix_counterexample :
    find_last_fix [("2025-06-01_gps.csv",
        [{ timestamp_utc := "2025-06-01T00:00:00Z", lat := "1.0", lon := "2.0"
           sats := "5", status := "FIX" }])] =
      some ("2025-06-01_gps.csv", "2025-06-01T00:00:00Z", 1, 2, "5") ∧
    find_last_fix_claim [("2025-06-01_gps.csv",
        [{ timestamp_utc := "2025-06-01T00:00:00Z", lat := "1.0", lon := "2.0"
           sats := "5", status := "FIX" }])] = none :=
  ⟨by decide, by decide⟩

/-- C9 amended: the scan walks files newest-first and rows most-recent
first, and returns the first entry whose status equals `fix` ignoring
ASCII case and whose latitude and longitude cells are both present
(non-empty); if that entry's coordinates fail to parse as numbers the
whole file is skipped; the absent value is returned when no file yields a
match. -/
theorem c9_find_last_fix_amended (files : List (String × List CsvRow)) :
    find_last_fix files = find_last_fix_amended files := by
  induction files with
  | nil => rfl
  | cons fr rest ih =>
      rcases fr with ⟨fp, rows⟩
      unfold find_last_fix find_last_fix_amended
      rw [scanRows_eq_find]
      rcases rows.reverse.find? qualifies with _ | r
      · exact ih
      · rcases h1 : pyFloat r.lat with _ | la <;> rcases h2 : pyFloat r.lon with _ | lo <;>
          simp [h1, h2, ih]

/-- For an angle in the first quadrant, the haversine core
`2 * atan2 (sqrt (sin x ^ 2)) (sqrt (1 - sin x ^ 2))` recovers `2 * x`. -/
theorem atan2_haversine_core (x : ℝ) (hx : 0 < x) (hx2 : x < Real.pi / 2) :
    2 * atan2 (Real.sqrt (Real.sin x ^ 2)) (Real.sqrt (1 - Real.sin x ^ 2)) = 2 * x := by
  have hpi := Real.pi_pos
  have hsin : 0 ≤ Real.sin x :=
    (Real.sin_pos_of_pos_of_lt_pi hx (by linarith)).le
  have hcos : 0 < Real.cos x := Real.cos_pos_of_mem_Ioo ⟨by linarith, hx2⟩
  have h1 : Real.sqrt (Real.sin x ^ 2) = Real.sin x := Real.sqrt_sq hsin
  have h2 : (1 : ℝ) - Real.sin x ^ 2 = Real.cos x ^ 2 := by
    have := Real.sin_sq_add_cos_sq x; linarith
  have h3 : Real.sqrt (1 - Real.sin x ^ 2) = Real.cos x := by
    rw [h2]; exact Real.sqrt_sq hcos.le
  rw [h1, h3]
  unfold atan2
  rw [if_pos hcos, ← Real.tan_eq_sin_div_cos, Real.arctan_tan (by linarith) hx2]

/-- C10: `haversine_km` is the standard great-circle formula with mean
Earth radius 6371.0088 km: it vanishes on every pair of equal
coordinates, and from `(0,0)` to `(0,1)` it equals `6371.0088 · π / 180`,
which is within 0.1 of 111.2 km. -/
theorem c10_haversine :
    (∀ lat lon : ℝ, haversine_km lat lon lat lon = 0) ∧
    haversine_km 0 0 0 1 = 6371.0088 * Real.pi / 180 ∧
    |haversine_km 0 0 0 1 - 111.2| < 0.1 := by
  have hpi := Real.pi_pos
  have hmain : haversine_km 0 0 0 1 = 6371.0088 * Real.pi / 180 := by
    have hx : (0 : ℝ) < Real.pi / 360 := by positivity
    have hx2 : Real.pi / 360 < Real.pi / 2 := by linarith
    have hcore := atan2_haversine_core (Real.pi / 360) hx hx2
    simp only [haversine_km, radians]
    norm_num
    rw [show (Real.pi / 180) / 2 = Real.pi / 360 by ring]
    rw [hcore]
    ring
  refine ⟨?_, hmain, ?_⟩
  · intro lat lon
    simp only [haversine_km, radians]
    rw [sub_self, sub_self]
    norm_num
    simp [atan2, Real.arctan_zero]
  · rw [hmain, abs_lt]
    constructor <;> nlinarith [Real.pi_gt_d6, Real.pi_lt_d6]

end HopeTurtle
